import Mathlib

/-!
Shallow embedding of the rest-on-dynamo library (src/src/result.ts, src/src/utils.ts,
src/src/client.ts) and proofs about it.

JavaScript objects used as string-keyed maps (items, Ids, override tables) are embedded
as association lists `List (String × α)`; `Object.assign` is embedded as an in-order
fold that overwrites an existing binding in place or appends a new one, which preserves
the JS property-enumeration order.  Optional / possibly-undefined fields become
`Option`; construction-time `throw` in the builders becomes `Except String`.
Each client verb is a pure function of the client state, the call arguments and the
responses the backend would deliver to the issued requests; it additionally records
which store operations were issued, whether a describe-table call was issued, the
callback invocations performed and the final state of the returned promise
(`none` = the promise never settles).
-/

namespace RestOnDynamo

/-- Attribute values of a table item (the DocumentClient attribute values exercised by
the library: strings, numbers and nested plain objects). -/
inductive AttrValue : Type
  | str (s : String)
  | num (n : Int)
  | obj (fields : List (String × AttrValue))

/-- A JS object used as a string-keyed map (an `Id`, an item, expression values…),
in property-enumeration order. -/
abbrev Record := List (String × AttrValue)

/-- Property access `m[k]`: the binding of the first entry named `k`, if any. -/
def lookupRecord {α : Type} (k : String) : List (String × α) → Option α
  | [] => none
  | (k₀, v) :: rest => if k₀ = k then some v else lookupRecord k rest

/-- Property assignment `m[k] = v` on a JS object: overwrite an existing binding in
place, else append the new binding (JS property-enumeration order). -/
def recordSet {α : Type} (m : List (String × α)) (k : String) (v : α) : List (String × α) :=
  if m.any (fun p => p.1 = k) then m.map (fun p => if p.1 = k then (k, v) else p)
  else m ++ [(k, v)]

/-- `Object.assign(target, src)`: copy the properties of `src` onto `target` in order. -/
def objectAssign {α : Type} (target src : List (String × α)) : List (String × α) :=
  src.foldl (fun acc p => recordSet acc p.1 p.2) target

/-- `Object.assign({}, data, id)`, the item written by `post` and `put`
(src/src/client.ts lines 107 and 135). -/
def mkItem (data id : Record) : Record :=
  objectAssign (objectAssign [] data) id

/-- The fields of an aws-sdk `AWSError` that the library reads: the error code string,
the message and the (optional) HTTP status code. -/
structure AWSError where
  code : String
  message : String
  statusCode : Option Nat
  deriving DecidableEq

/-- `enum ErrorStatusCodeRange` (src/src/result.ts). -/
inductive ErrorStatusCodeRange : Type
  | Client
  | Server
  deriving DecidableEq

/-- Numeric value of the `ErrorStatusCodeRange` enum member (Client = 400, Server = 500). -/
def ErrorStatusCodeRange.code : ErrorStatusCodeRange → Nat
  | .Client => 400
  | .Server => 500

/-- `determineErrorStatusRange` (src/src/result.ts lines 4-6). -/
def determineErrorStatusRange (statusCode : Nat) : ErrorStatusCodeRange :=
  if statusCode ≥ 500 then ErrorStatusCodeRange.Server else ErrorStatusCodeRange.Client

/-- `enum ErrorType` (src/src/result.ts). -/
inductive ErrorType : Type
  | BadRequest
  | Unauthorized
  | Forbidden
  | NotFound
  | Conflict
  | InternalServerError
  | ServiceUnavailable
  deriving DecidableEq

/-- Numeric value of the `ErrorType` enum member. -/
def ErrorType.code : ErrorType → Nat
  | .BadRequest => 400
  | .Unauthorized => 401
  | .Forbidden => 403
  | .NotFound => 404
  | .Conflict => 409
  | .InternalServerError => 500
  | .ServiceUnavailable => 503

/-- `enum SuccessType` (src/src/result.ts). -/
inductive SuccessType : Type
  | Ok
  | Created
  | NoContent
  deriving DecidableEq

/-- Numeric value of the `SuccessType` enum member. -/
def SuccessType.code : SuccessType → Nat
  | .Ok => 200
  | .Created => 201
  | .NoContent => 204

/-- `class Err` (src/src/result.ts): the immutable failure envelope. -/
structure Err where
  isAwsError : Bool
  defaultStatusCode : ErrorType
  message : String
  errorStatusCodeRange : ErrorStatusCodeRange
  awsError : Option AWSError
  deriving DecidableEq

/-- The `{[key: string]: ErrorType}` override table of `Err.Builder`. -/
abbrev OverrideMap := List (String × ErrorType)

/-- The `switch (this.awsError.statusCode)` classification inside `Err.Builder.build`
(src/src/result.ts lines 155-183): 503 and 500 map to the matching server error types,
every other status falls through to the override lookup,
`this.awsErrorCodeToErrorTypeOverride[code] || ErrorType.BadRequest`. -/
def classifyAwsStatus (ov : OverrideMap) (e : AWSError) : ErrorType :=
  if e.statusCode = some 503 then ErrorType.ServiceUnavailable
  else if e.statusCode = some 500 then ErrorType.InternalServerError
  else
    match lookupRecord e.code ov with
    | some t => t
    | none => ErrorType.BadRequest

/-- The `Err` value produced by `Err.Builder.build` when an `AWSError` was supplied. -/
def buildAwsErr (e : AWSError) (ov : OverrideMap) : Err :=
  { isAwsError := true
    defaultStatusCode := classifyAwsStatus ov e
    message := e.message
    errorStatusCodeRange := determineErrorStatusRange (classifyAwsStatus ov e).code
    awsError := some e }

/-- The `Err` value produced by `Err.Builder.build` when an error type and a message
were supplied and no `AWSError` was. -/
def mkRestErr (t : ErrorType) (m : String) : Err :=
  { isAwsError := false
    defaultStatusCode := t
    message := m
    errorStatusCodeRange := determineErrorStatusRange t.code
    awsError := none }

/-- `Err.Builder` (src/src/result.ts): the mutable accumulation state. -/
structure ErrBuilder where
  message : Option String := none
  errorType : Option ErrorType := none
  awsError : Option AWSError := none
  awsErrorCodeToErrorTypeOverride : OverrideMap := []

def ErrBuilder.withAwsError (b : ErrBuilder) (e : AWSError) : ErrBuilder :=
  { b with awsError := some e }

def ErrBuilder.withErrorType (b : ErrBuilder) (t : ErrorType) : ErrBuilder :=
  { b with errorType := some t }

def ErrBuilder.withMessage (b : ErrBuilder) (m : String) : ErrBuilder :=
  { b with message := some m }

def ErrBuilder.withAwsErrorCodeToErrorTypeOverride (b : ErrBuilder) (ov : OverrideMap) :
    ErrBuilder :=
  { b with awsErrorCodeToErrorTypeOverride :=
      objectAssign (objectAssign [] b.awsErrorCodeToErrorTypeOverride) ov }

/-- JS truthiness of the builder `message` field: `undefined` and the empty string are
falsy, every other string is truthy. -/
def messageTruthy : Option String → Bool
  | none => false
  | some s => s ≠ ""

/-- `Err.Builder.validate` as a predicate (src/src/result.ts lines 149-153): passes iff
an `AWSError` is present, or both `errorType` and `message` are truthy (every
`ErrorType` enum value is a nonzero number, hence truthy whenever set). -/
def ErrBuilder.validatePasses (b : ErrBuilder) : Bool :=
  b.awsError.isSome || (b.errorType.isSome && messageTruthy b.message)

/-- `Err.Builder.build` (src/src/result.ts lines 155-183); a thrown `Error` becomes
`Except.error` of its message. -/
def ErrBuilder.build (b : ErrBuilder) : Except String Err :=
  if b.validatePasses then
    match b.awsError with
    | some e => Except.ok (buildAwsErr e b.awsErrorCodeToErrorTypeOverride)
    | none =>
      match b.errorType, b.message with
      | some t, some m => Except.ok (mkRestErr t m)
      | _, _ => Except.error "Both errorType and message have to be supplied when no AWSError provided"
  else
    Except.error "Both errorType and message have to be supplied when no AWSError provided"

/-- `class Ok<T>` (src/src/result.ts): the immutable success envelope. -/
structure OkV (T : Type) where
  data : Option T
  defaultStatusCode : SuccessType
  deriving DecidableEq

/-- `Ok.Builder` (src/src/result.ts). -/
structure OkBuilder (T : Type) where
  data : Option T := none
  defaultStatusCode : Option SuccessType := none

def OkBuilder.withData {T : Type} (b : OkBuilder T) (d : T) : OkBuilder T :=
  { b with data := some d }

def OkBuilder.withDefaultStatusCode {T : Type} (b : OkBuilder T) (c : SuccessType) :
    OkBuilder T :=
  { b with defaultStatusCode := some c }

/-- `Ok.Builder.build` (src/src/result.ts lines 225 onward): throws when
`defaultStatusCode` is falsy (every `SuccessType` enum value is a nonzero number, so
falsy means unset). -/
def OkBuilder.build {T : Type} (b : OkBuilder T) : Except String (OkV T) :=
  match b.defaultStatusCode with
  | some c => Except.ok { data := b.data, defaultStatusCode := c }
  | none => Except.error "defaultStatusCode has to be set"

/-- `parseDynamoUpdateArgs` (src/src/utils.ts lines 38-49): one `key = :key` clause and
one `:key ↦ value` binding per entry, in entry order. -/
def parseDynamoUpdateArgs (data : Record) : String × Record :=
  let updateExpression := data.map (fun p => p.1 ++ " = :" ++ p.1)
  let expressionAttributeValues := data.map (fun p => (":" ++ p.1, p.2))
  ("SET " ++ String.intercalate "," updateExpression, expressionAttributeValues)

/-- `keyNotExistConditionalExpression` (src/src/client.ts). -/
def keyNotExistConditionalExpression (keys : List String) : String :=
  String.intercalate " AND " (keys.map (fun keyName => "attribute_not_exists(" ++ keyName ++ ")"))

/-- `keyExistConditionalExpression` (src/src/client.ts). -/
def keyExistConditionalExpression (keys : List String) : String :=
  String.intercalate " AND " (keys.map (fun keyName => "attribute_exists(" ++ keyName ++ ")"))

/-- `keyProjectionExpression` (src/src/client.ts). -/
def keyProjectionExpression (keys : List String) : String :=
  String.intercalate "," keys

/-- Outcome of one backend request, as delivered to the node-style callback the client
hands to the aws-sdk: either an `AWSError` or the output value. -/
inductive DbResponse (α : Type) : Type
  | err (e : AWSError)
  | ok (d : α)

/-- The mutable state of a `RestOnDynamoClient` instance: the `keys` field, `undefined`
until the first successful describe-table call (src/src/client.ts line 21).  A set
`keys` array is truthy in JS even when empty, so the cache test is `Option.isSome`. -/
structure ClientState where
  keys : Option (List String)
  deriving DecidableEq

/-- `keySchemaSync` (src/src/client.ts lines 34-51) as one step: given the response the
backend would deliver to a describe-table request, return the new client state, whether
a describe-table request was issued, and either the resolved key attribute names or the
`Err` the returned promise rejects with. -/
def keySchemaSyncStep (st : ClientState) (dResp : DbResponse (List String)) :
    ClientState × Bool × Except Err (List String) :=
  match st.keys with
  | some ks => (st, false, Except.ok ks)
  | none =>
    match dResp with
    | .ok names => ({ keys := some names }, true, Except.ok names)
    | .err e => (st, true, Except.error (buildAwsErr e []))

/-- A request issued against the underlying store (the DocumentClient), with the
parameters the client passes. -/
inductive StoreOp : Type
  | getItem (table : String) (key : Record) (projectionExpr : Option String)
  | putItem (table : String) (item : Record) (conditionExpr : String)
  | deleteItem (table : String) (key : Record)
  | updateItem (table : String) (key : Record) (conditionExpr : String)
      (updateExpr : String) (expressionAttributeValues : Record)

/-- Everything observable about one verb invocation: the final client state, whether a
describe-table request was issued, the store operations issued, the callback
invocations `(error?, data?)` performed, and the final state of the promise wrapped in
the returned `Result` (`none` when it never settles). -/
structure VerbOutcome where
  finalState : ClientState
  describeIssued : Bool
  storeOps : List StoreOp
  callbackCalls : List (Option Err × Option (OkV Record))
  promiseOutcome : Option (Except Err (OkV Record))

/-- The callback invocation delivering a classification: `callback(err, null)` for a
failure, `callback(null, ok)` for a success. -/
def cbackOf : Except Err (OkV Record) → Option Err × Option (OkV Record)
  | .error e => (some e, none)
  | .ok o => (none, some o)

/-- The `callback ? callback(err, null) : rej(err)` / `callback ? callback(null, ok) :
res(ok)` delivery appearing in every verb (src/src/client.ts): with a callback the
classification goes to the callback and the promise is never settled; without one it
settles the promise. -/
def deliver (hasCallback : Bool) (r : Except Err (OkV Record)) :
    List (Option Err × Option (OkV Record)) × Option (Except Err (OkV Record)) :=
  if hasCallback then ([cbackOf r], none) else ([], some r)

/-- `RestOnDynamoClient.get` (src/src/client.ts lines 69-93).  On a key-schema
resolution failure the store is never contacted, the callback is never invoked and the
promise rejects; otherwise the get request is issued with the raw `id` and the response
is classified and delivered. -/
def runGet (st : ClientState) (table : String) (id : Record) (hasCallback : Bool)
    (dResp : DbResponse (List String)) (gResp : DbResponse (Option Record)) : VerbOutcome :=
  match keySchemaSyncStep st dResp with
  | (st₁, issued, .error e) =>
    { finalState := st₁, describeIssued := issued, storeOps := [],
      callbackCalls := [], promiseOutcome := some (Except.error e) }
  | (st₁, issued, .ok _) =>
    let r : Except Err (OkV Record) :=
      match gResp with
      | .err e => Except.error (buildAwsErr e [])
      | .ok (some item) =>
        Except.ok { data := some item, defaultStatusCode := SuccessType.Ok }
      | .ok none => Except.error (mkRestErr ErrorType.NotFound "Key does not exist")
    let d := deliver hasCallback r
    { finalState := st₁, describeIssued := issued,
      storeOps := [StoreOp.getItem table id none],
      callbackCalls := d.1, promiseOutcome := d.2 }

/-- `RestOnDynamoClient.head` (src/src/client.ts): a get request projected onto the key
attributes; a found item yields `Ok(204)` with no data. -/
def runHead (st : ClientState) (table : String) (id : Record) (hasCallback : Bool)
    (dResp : DbResponse (List String)) (hResp : DbResponse (Option Record)) : VerbOutcome :=
  match keySchemaSyncStep st dResp with
  | (st₁, issued, .error e) =>
    { finalState := st₁, describeIssued := issued, storeOps := [],
      callbackCalls := [], promiseOutcome := some (Except.error e) }
  | (st₁, issued, .ok ks) =>
    let r : Except Err (OkV Record) :=
      match hResp with
      | .err e => Except.error (buildAwsErr e [])
      | .ok (some _) =>
        Except.ok { data := none, defaultStatusCode := SuccessType.NoContent }
      | .ok none => Except.error (mkRestErr ErrorType.NotFound "Key not found")
    let d := deliver hasCallback r
    { finalState := st₁, describeIssued := issued,
      storeOps := [StoreOp.getItem table id (some (keyProjectionExpression ks))],
      callbackCalls := d.1, promiseOutcome := d.2 }

/-- `RestOnDynamoClient.post` (src/src/client.ts lines 106-129): put the merged item
under the all-keys-absent condition; a backend failure is classified with the
conditional-check-failed code overridden to `Conflict`. -/
def runPost (st : ClientState) (table : String) (id data : Record) (hasCallback : Bool)
    (dResp : DbResponse (List String)) (pResp : DbResponse Unit) : VerbOutcome :=
  let item := mkItem data id
  match keySchemaSyncStep st dResp with
  | (st₁, issued, .error e) =>
    { finalState := st₁, describeIssued := issued, storeOps := [],
      callbackCalls := [], promiseOutcome := some (Except.error e) }
  | (st₁, issued, .ok ks) =>
    let r : Except Err (OkV Record) :=
      match pResp with
      | .err e =>
        Except.error (buildAwsErr e [("ConditionalCheckFailedException", ErrorType.Conflict)])
      | .ok _ =>
        Except.ok { data := some item, defaultStatusCode := SuccessType.Created }
    let d := deliver hasCallback r
    { finalState := st₁, describeIssued := issued,
      storeOps := [StoreOp.putItem table item (keyNotExistConditionalExpression ks)],
      callbackCalls := d.1, promiseOutcome := d.2 }

/-- `RestOnDynamoClient.put` (src/src/client.ts lines 134-157): put the merged item
under the all-keys-present condition; the conditional-check-failed code is overridden
to `NotFound`. -/
def runPut (st : ClientState) (table : String) (id data : Record) (hasCallback : Bool)
    (dResp : DbResponse (List String)) (pResp : DbResponse Unit) : VerbOutcome :=
  let item := mkItem data id
  match keySchemaSyncStep st dResp with
  | (st₁, issued, .error e) =>
    { finalState := st₁, describeIssued := issued, storeOps := [],
      callbackCalls := [], promiseOutcome := some (Except.error e) }
  | (st₁, issued, .ok ks) =>
    let r : Except Err (OkV Record) :=
      match pResp with
      | .err e =>
        Except.error (buildAwsErr e [("ConditionalCheckFailedException", ErrorType.NotFound)])
      | .ok _ =>
        Except.ok { data := some item, defaultStatusCode := SuccessType.Ok }
    let d := deliver hasCallback r
    { finalState := st₁, describeIssued := issued,
      storeOps := [StoreOp.putItem table item (keyExistConditionalExpression ks)],
      callbackCalls := d.1, promiseOutcome := d.2 }

/-- `RestOnDynamoClient.delete` (src/src/client.ts lines 160-175): unconditional
delete; any success yields `Ok(204)` with no data, a backend failure is classified
with no override. -/
def runDelete (st : ClientState) (table : String) (id : Record) (hasCallback : Bool)
    (dResp : DbResponse (List String)) (delResp : DbResponse Unit) : VerbOutcome :=
  match keySchemaSyncStep st dResp with
  | (st₁, issued, .error e) =>
    { finalState := st₁, describeIssued := issued, storeOps := [],
      callbackCalls := [], promiseOutcome := some (Except.error e) }
  | (st₁, issued, .ok _) =>
    let r : Except Err (OkV Record) :=
      match delResp with
      | .err e => Except.error (buildAwsErr e [])
      | .ok _ =>
        Except.ok { data := none, defaultStatusCode := SuccessType.NoContent }
    let d := deliver hasCallback r
    { finalState := st₁, describeIssued := issued,
      storeOps := [StoreOp.deleteItem table id],
      callbackCalls := d.1, promiseOutcome := d.2 }

/-- `RestOnDynamoClient.patch` (src/src/client.ts lines 183-207): update under the
all-keys-present condition using the §4.3 update-expression builder, returning the
whole post-update item (`ReturnValues: ALL_NEW`, surfaced as `d.Attributes`); the
conditional-check-failed code is overridden to `NotFound`. -/
def runPatch (st : ClientState) (table : String) (id data : Record) (hasCallback : Bool)
    (dResp : DbResponse (List String)) (uResp : DbResponse (Option Record)) : VerbOutcome :=
  match keySchemaSyncStep st dResp with
  | (st₁, issued, .error e) =>
    { finalState := st₁, describeIssued := issued, storeOps := [],
      callbackCalls := [], promiseOutcome := some (Except.error e) }
  | (st₁, issued, .ok ks) =>
    let args := parseDynamoUpdateArgs data
    let r : Except Err (OkV Record) :=
      match uResp with
      | .err e =>
        Except.error (buildAwsErr e [("ConditionalCheckFailedException", ErrorType.NotFound)])
      | .ok attrs =>
        Except.ok { data := attrs, defaultStatusCode := SuccessType.Ok }
    let d := deliver hasCallback r
    { finalState := st₁, describeIssued := issued,
      storeOps := [StoreOp.updateItem table id (keyExistConditionalExpression ks) args.1 args.2],
      callbackCalls := d.1, promiseOutcome := d.2 }

/-- One verb invocation with its arguments and the backend responses it would receive:
the unit of "a verb call" for statements about call sequences on one client. -/
inductive VerbCall : Type
  | getC (table : String) (id : Record) (hasCallback : Bool)
      (dResp : DbResponse (List String)) (resp : DbResponse (Option Record))
  | headC (table : String) (id : Record) (hasCallback : Bool)
      (dResp : DbResponse (List String)) (resp : DbResponse (Option Record))
  | postC (table : String) (id data : Record) (hasCallback : Bool)
      (dResp : DbResponse (List String)) (resp : DbResponse Unit)
  | putC (table : String) (id data : Record) (hasCallback : Bool)
      (dResp : DbResponse (List String)) (resp : DbResponse Unit)
  | deleteC (table : String) (id : Record) (hasCallback : Bool)
      (dResp : DbResponse (List String)) (resp : DbResponse Unit)
  | patchC (table : String) (id data : Record) (hasCallback : Bool)
      (dResp : DbResponse (List String)) (resp : DbResponse (Option Record))

/-- The describe-table response available to a call (used on a cache miss). -/
def VerbCall.describeResp : VerbCall → DbResponse (List String)
  | .getC _ _ _ d _ => d
  | .headC _ _ _ d _ => d
  | .postC _ _ _ _ d _ => d
  | .putC _ _ _ _ d _ => d
  | .deleteC _ _ _ d _ => d
  | .patchC _ _ _ _ d _ => d

/-- Dispatch one verb invocation from a client state. -/
def runVerbCall (st : ClientState) : VerbCall → VerbOutcome
  | .getC t i cb d r => runGet st t i cb d r
  | .headC t i cb d r => runHead st t i cb d r
  | .postC t i dat cb d r => runPost st t i dat cb d r
  | .putC t i dat cb d r => runPut st t i dat cb d r
  | .deleteC t i cb d r => runDelete st t i cb d r
  | .patchC t i dat cb d r => runPatch st t i dat cb d r

/-- Run a sequence of verb invocations on one client, threading the client state and
counting the describe-table requests issued. -/
def runCalls (st : ClientState) (calls : List VerbCall) : ClientState × Nat :=
  calls.foldl
    (fun acc c =>
      let o := runVerbCall acc.1 c
      (o.finalState, acc.2 + (if o.describeIssued then 1 else 0)))
    (st, 0)

/-- The `ValidationException` the store answers a malformed request with. -/
def validationException : AWSError :=
  { code := "ValidationException"
    message := "The provided key element does not match the schema"
    statusCode := some 400 }

/-- Whether the attribute names of `id` exactly match the key schema `ks`: no declared
key attribute missing and no unrecognized attribute present. -/
def idMatchesSchema (ks : List String) (id : Record) : Bool :=
  ks.all (fun k => id.any (fun p => p.1 = k)) && id.all (fun p => ks.contains p.1)

/-- Modelled from the spec: the underlying store collaborator (the aws-sdk
DocumentClient, which is not part of src/) rejects a key-based request (get, delete,
update) whose key attribute names do not exactly match the table's key schema with a
client-range `ValidationException`; `onValid` abstracts its behavior on a well-formed
key. -/
def storeKeyValidated {α : Type} (ks : List String) (key : Record) (onValid : DbResponse α) :
    DbResponse α :=
  if idMatchesSchema ks key then onValid else DbResponse.err validationException

/-- Modelled from the spec: the collaborator rejects a put request whose item lacks a
declared key attribute with a client-range `ValidationException`; `onValid` abstracts
its behavior on a well-formed item. -/
def storeItemValidated {α : Type} (ks : List String) (item : Record) (onValid : DbResponse α) :
    DbResponse α :=
  if ks.all (fun k => item.any (fun p => p.1 = k)) then onValid
  else DbResponse.err validationException

/-- Modelled from the spec: the collaborator's `deleteItem` succeeds regardless of the
item's prior existence in the table (delete is idempotent at the store level). -/
def storeDeleteItemResp (tbl : List Record) (key : Record) : DbResponse Unit :=
  DbResponse.ok ()

/-- First-defined choice on options (the shape JS `||` takes on object lookups). -/
def optOr {α : Type} : Option α → Option α → Option α
  | some v, _ => some v
  | none, b => b

/-- The callback path of `withCb` delivers exactly the classification the promise path
of `noCb` delivers, the callback-path promise never settles and the promise-path
callback is never invoked. -/
def callbackAgrees (withCb noCb : VerbOutcome) : Prop :=
  withCb.promiseOutcome = none ∧ noCb.callbackCalls = [] ∧
  ∃ r, noCb.promiseOutcome = some r ∧ withCb.callbackCalls = [cbackOf r]

/-! ## Helper lemmas -/

theorem optOr_none_right {α : Type} (a : Option α) : optOr a none = a := by
  cases a <;> rfl

theorem lookupRecord_append {α : Type} (k : String) (a b : List (String × α)) :
    lookupRecord k (a ++ b) = optOr (lookupRecord k a) (lookupRecord k b) := by
  induction a with
  | nil => rfl
  | cons p rest ih =>
    obtain ⟨k₀, v⟩ := p
    by_cases h : k₀ = k <;> simp [lookupRecord, h, ih, optOr]

theorem lookupRecord_eq_none {α : Type} (k : String) (m : List (String × α))
    (h : ∀ p ∈ m, p.1 ≠ k) : lookupRecord k m = none := by
  induction m with
  | nil => rfl
  | cons p rest ih =>
    obtain ⟨k₀, v⟩ := p
    have hk : k₀ ≠ k := h (k₀, v) (List.mem_cons_self _ _)
    simp only [lookupRecord, if_neg hk]
    exact ih (fun q hq => h q (List.mem_cons_of_mem _ hq))

theorem lookupRecord_map_hit {α : Type} (k₁ : String) (v : α) (m : List (String × α))
    (hany : (m.any fun p => p.1 = k₁) = true) :
    lookupRecord k₁ (m.map (fun p => if p.1 = k₁ then (k₁, v) else p)) = some v := by
  induction m with
  | nil => simp at hany
  | cons p rest ih =>
    obtain ⟨k₀, v₀⟩ := p
    simp only [List.map_cons]
    by_cases h₀ : k₀ = k₁
    · rw [show (if (k₀, v₀).1 = k₁ then (k₁, v) else (k₀, v₀)) = (k₁, v) from if_pos h₀]
      simp [lookupRecord]
    · rw [show (if (k₀, v₀).1 = k₁ then (k₁, v) else (k₀, v₀)) = (k₀, v₀) from if_neg h₀]
      simp only [lookupRecord, if_neg h₀]
      apply ih
      simp only [List.any_cons, decide_eq_true_eq, h₀, decide_False, Bool.false_or] at hany
      exact hany

theorem lookupRecord_map_other {α : Type} (k k₁ : String) (v : α) (m : List (String × α))
    (hk : k₁ ≠ k) :
    lookupRecord k (m.map (fun p => if p.1 = k₁ then (k₁, v) else p)) = lookupRecord k m := by
  induction m with
  | nil => rfl
  | cons p rest ih =>
    obtain ⟨k₀, v₀⟩ := p
    simp only [List.map_cons]
    by_cases h₀ : k₀ = k₁
    · rw [show (if (k₀, v₀).1 = k₁ then (k₁, v) else (k₀, v₀)) = (k₁, v) from if_pos h₀]
      have hk₀ : ¬ k₀ = k := h₀ ▸ hk
      simp only [lookupRecord, if_neg hk, if_neg hk₀]
      exact ih
    · rw [show (if (k₀, v₀).1 = k₁ then (k₁, v) else (k₀, v₀)) = (k₀, v₀) from if_neg h₀]
      simp only [lookupRecord]
      by_cases hk₀ : k₀ = k
      · simp [hk₀]
      · simp only [if_neg hk₀]
        exact ih

theorem lookupRecord_recordSet {α : Type} (k k₁ : String) (v : α) (m : List (String × α)) :
    lookupRecord k (recordSet m k₁ v) = if k₁ = k then some v else lookupRecord k m := by
  unfold recordSet
  by_cases hany : (m.any fun p => p.1 = k₁) = true
  · rw [if_pos hany]
    by_cases hk : k₁ = k
    · subst hk
      rw [if_pos rfl]
      exact lookupRecord_map_hit k₁ v m hany
    · rw [if_neg hk]
      exact lookupRecord_map_other k k₁ v m hk
  · rw [if_neg hany, lookupRecord_append]
    have hnone : lookupRecord k₁ m = none := by
      apply lookupRecord_eq_none
      intro p hp hcontra
      exact hany (List.any_eq_true.mpr ⟨p, hp, by simp [hcontra]⟩)
    by_cases hk : k₁ = k
    · subst hk
      rw [hnone]
      simp [lookupRecord, optOr]
    · simp only [lookupRecord, if_neg hk]
      exact optOr_none_right _

theorem lookupRecord_objectAssign {α : Type} (k : String) (src : List (String × α))
    (hnd : (src.map Prod.fst).Nodup) (t : List (String × α)) :
    lookupRecord k (objectAssign t src) = optOr (lookupRecord k src) (lookupRecord k t) := by
  induction src generalizing t with
  | nil => simp [objectAssign, lookupRecord, optOr]
  | cons p rest ih =>
    obtain ⟨k₀, v₀⟩ := p
    simp only [List.map_cons, List.nodup_cons] at hnd
    obtain ⟨hnotin, hndrest⟩ := hnd
    have step : objectAssign t ((k₀, v₀) :: rest) = objectAssign (recordSet t k₀ v₀) rest := rfl
    rw [step, ih hndrest, lookupRecord_recordSet]
    by_cases hk : k₀ = k
    · subst hk
      have : lookupRecord k₀ rest = none := by
        apply lookupRecord_eq_none
        intro q hq hcontra
        exact hnotin (hcontra ▸ List.mem_map_of_mem Prod.fst hq)
      simp [lookupRecord, this, optOr]
    · simp [lookupRecord, hk, optOr]

theorem determineErrorStatusRange_server_iff (n : Nat) :
    determineErrorStatusRange n = ErrorStatusCodeRange.Server ↔ 500 ≤ n := by
  unfold determineErrorStatusRange
  by_cases h : n ≥ 500 <;> simp [h]

/-- With a cached key schema, `keySchemaSync` issues no describe-table request, keeps
the state and yields the cached names. -/
theorem keySchemaSyncStep_cached (ks : List String) (dResp : DbResponse (List String)) :
    keySchemaSyncStep ⟨some ks⟩ dResp = (⟨some ks⟩, false, Except.ok ks) := rfl

/-- On the first call, a successful describe-table response caches the resolved names. -/
theorem keySchemaSyncStep_first (names : List String) :
    keySchemaSyncStep ⟨none⟩ (DbResponse.ok names) = (⟨some names⟩, true, Except.ok names) := rfl

/-- Any verb invocation on a client whose key schema is already cached keeps the state
and issues no describe-table request. -/
theorem runVerbCall_cached (ks : List String) (c : VerbCall) :
    (runVerbCall ⟨some ks⟩ c).finalState = ⟨some ks⟩ ∧
    (runVerbCall ⟨some ks⟩ c).describeIssued = false := by
  cases c <;> exact ⟨rfl, rfl⟩

/-- The first verb invocation with a successful describe-table response caches the
resolved attribute names and issues one describe-table request. -/
theorem runVerbCall_first (names : List String) (c : VerbCall)
    (h : c.describeResp = DbResponse.ok names) :
    (runVerbCall ⟨none⟩ c).finalState = ⟨some names⟩ ∧
    (runVerbCall ⟨none⟩ c).describeIssued = true := by
  cases c <;> (simp only [VerbCall.describeResp] at h; subst h; exact ⟨rfl, rfl⟩)

/-- A call sequence starting from a cached key schema leaves the state untouched and
issues no describe-table request at all. -/
theorem runCallsAux_cached (ks : List String) (calls : List VerbCall) :
    ∀ n : Nat,
      calls.foldl
        (fun acc c =>
          let o := runVerbCall acc.1 c
          (o.finalState, acc.2 + (if o.describeIssued then 1 else 0)))
        (⟨some ks⟩, n) = (⟨some ks⟩, n) := by
  induction calls with
  | nil => intro n; rfl
  | cons c rest ih =>
    intro n
    rw [List.foldl_cons]
    have h := runVerbCall_cached ks c
    simp only [h.1, h.2, Bool.false_eq_true, if_false, Nat.add_zero]
    exact ih n

/-- Fidelity of the verb models to the builder chains in src/src/client.ts: building
an `Err` from an `AWSError` with an override table through `Err.Builder` yields
exactly `buildAwsErr`. -/
theorem errBuilder_build_awsError (e : AWSError) (ov : OverrideMap) :
    ((({} : ErrBuilder).withAwsError e).withAwsErrorCodeToErrorTypeOverride ov).build
      = Except.ok (buildAwsErr e (objectAssign [] ov)) := by
  simp [ErrBuilder.build, ErrBuilder.validatePasses, ErrBuilder.withAwsError,
    ErrBuilder.withAwsErrorCodeToErrorTypeOverride, objectAssign]

/-- Fidelity of the verb models to the builder chains: building an `Err` from an error
type and a nonempty message through `Err.Builder` yields exactly `mkRestErr`. -/
theorem errBuilder_build_typeMessage (t : ErrorType) (m : String) (hm : m ≠ "") :
    ((({} : ErrBuilder).withErrorType t).withMessage m).build = Except.ok (mkRestErr t m) := by
  simp [ErrBuilder.build, ErrBuilder.validatePasses, messageTruthy,
    ErrBuilder.withErrorType, ErrBuilder.withMessage, hm]

/-- Fidelity of the verb models to the builder chains: `Ok.Builder` with a status code
set builds exactly the `OkV` the verbs produce. -/
theorem okBuilder_build_set {T : Type} (d : Option T) (c : SuccessType) :
    (OkBuilder.build { data := d, defaultStatusCode := some c })
      = Except.ok { data := d, defaultStatusCode := c } := rfl

/-! ## Claims -/

/-- C4: for every `Err` built from a backend failure, a backend-reported status of 503
yields `defaultStatusCode = ServiceUnavailable (503)`, a status of 500 yields
`InternalServerError (500)`, and any other status looks the backend failure code up in
the supplied override table, yielding the overridden `ErrorType` when present and
`BadRequest (400)` otherwise. -/
theorem claim_C4 (b : ErrBuilder) (e : AWSError) (err : Err)
    (haws : b.awsError = some e) (hbuild : b.build = Except.ok err) :
    (e.statusCode = some 503 → err.defaultStatusCode = ErrorType.ServiceUnavailable) ∧
    (e.statusCode = some 500 → err.defaultStatusCode = ErrorType.InternalServerError) ∧
    (e.statusCode ≠ some 503 → e.statusCode ≠ some 500 →
      (∀ t : ErrorType,
        lookupRecord e.code b.awsErrorCodeToErrorTypeOverride = some t →
          err.defaultStatusCode = t) ∧
      (lookupRecord e.code b.awsErrorCodeToErrorTypeOverride = none →
        err.defaultStatusCode = ErrorType.BadRequest)) := by
  have hv : b.validatePasses = true := by
    simp [ErrBuilder.validatePasses, haws]
  simp only [ErrBuilder.build, hv, if_true, haws] at hbuild
  have herr : err = buildAwsErr e b.awsErrorCodeToErrorTypeOverride := by
    cases hbuild
    rfl
  subst herr
  refine ⟨?_, ?_, ?_⟩
  · intro h503
    simp [buildAwsErr, classifyAwsStatus, h503]
  · intro h500
    simp [buildAwsErr, classifyAwsStatus, h500]
  · intro h503 h500
    constructor
    · intro t ht
      simp [buildAwsErr, classifyAwsStatus, h503, h500, ht]
    · intro hn
      simp [buildAwsErr, classifyAwsStatus, h503, h500, hn]

/-- Witness for C4 at concrete inputs: a 503 backend failure is classified as
`ServiceUnavailable`. -/
theorem claim_C4_witness :
    (buildAwsErr ⟨"ServiceUnavailable", "svc down", some 503⟩ []).defaultStatusCode
      = ErrorType.ServiceUnavailable :=
  (claim_C4
    { awsError := some ⟨"ServiceUnavailable", "svc down", some 503⟩ }
    ⟨"ServiceUnavailable", "svc down", some 503⟩
    (buildAwsErr ⟨"ServiceUnavailable", "svc down", some 503⟩ []) rfl rfl).1 rfl

/-- C5: every `Err` the builder produces — from a backend failure or from an explicit
type and message — has `errorStatusCodeRange` derived from its `defaultStatusCode` via
`determineErrorStatusRange`, so the range is `Server` iff the code is at least 500 and
`Client` otherwise. -/
theorem claim_C5 (b : ErrBuilder) (err : Err) (hbuild : b.build = Except.ok err) :
    err.errorStatusCodeRange = determineErrorStatusRange err.defaultStatusCode.code ∧
    (err.errorStatusCodeRange = ErrorStatusCodeRange.Server ↔
      500 ≤ err.defaultStatusCode.code) := by
  suffices h : err.errorStatusCodeRange = determineErrorStatusRange err.defaultStatusCode.code by
    refine ⟨h, ?_⟩
    rw [h]
    exact determineErrorStatusRange_server_iff _
  unfold ErrBuilder.build at hbuild
  by_cases hv : b.validatePasses = true
  case neg => simp [hv] at hbuild
  rw [if_pos hv] at hbuild
  cases haws : b.awsError with
  | some e =>
    rw [haws] at hbuild
    cases hbuild
    simp [buildAwsErr]
  | none =>
    rw [haws] at hbuild
    cases ht : b.errorType with
    | none => rw [ht] at hbuild; cases hm : b.message <;> rw [hm] at hbuild <;> cases hbuild
    | some t =>
      rw [ht] at hbuild
      cases hm : b.message with
      | none => rw [hm] at hbuild; cases hbuild
      | some m =>
        rw [hm] at hbuild
        cases hbuild
        simp [mkRestErr]

/-- Witness for C5 at a concrete input: a 404 `Err` carries the `Client` range. -/
theorem claim_C5_witness :
    (mkRestErr ErrorType.NotFound "missing").errorStatusCodeRange
        = determineErrorStatusRange (mkRestErr ErrorType.NotFound "missing").defaultStatusCode.code ∧
    ((mkRestErr ErrorType.NotFound "missing").errorStatusCodeRange = ErrorStatusCodeRange.Server ↔
      500 ≤ (mkRestErr ErrorType.NotFound "missing").defaultStatusCode.code) :=
  claim_C5
    { errorType := some ErrorType.NotFound, message := some "missing" }
    (mkRestErr ErrorType.NotFound "missing") rfl

/-- C6: `Err.Builder.build` fails when neither a backend error nor both a truthy error
type and a truthy message were supplied (only a type, or only a message, also fails),
and `Ok.Builder.build` fails when no `defaultStatusCode` was set; in either case no
instance is produced. -/
theorem claim_C6 :
    (∀ b : ErrBuilder, b.awsError = none → b.errorType = none ∨ b.message = none →
      ∃ msg, b.build = Except.error msg) ∧
    (∀ (T : Type) (ob : OkBuilder T), ob.defaultStatusCode = none →
      ∃ msg, ob.build = Except.error msg) := by
  constructor
  · intro b haws hcases
    have hv : b.validatePasses = false := by
      rcases hcases with h | h <;> simp [ErrBuilder.validatePasses, haws, h, messageTruthy]
    exact ⟨"Both errorType and message have to be supplied when no AWSError provided",
      by simp [ErrBuilder.build, hv]⟩
  · intro T ob h
    exact ⟨"defaultStatusCode has to be set", by simp [OkBuilder.build, h]⟩

/-- Witness for C6 at concrete inputs: an `Err` builder holding only an error type
fails, and an empty `Ok` builder fails. -/
theorem claim_C6_witness :
    (∃ msg, (({} : ErrBuilder).withErrorType ErrorType.BadRequest).build
        = Except.error msg) ∧
    (∃ msg, ({} : OkBuilder Record).build = Except.error msg) :=
  ⟨claim_C6.1 (({} : ErrBuilder).withErrorType ErrorType.BadRequest) rfl (Or.inr rfl),
   claim_C6.2 Record {} rfl⟩

/-- C7: the update-expression builder emits one `name = :name` clause per entry in
entry order joined by commas after the `SET` prefix, and one `:name ↦ value` binding
per entry; on `[key1 ↦ "v1", key2 ↦ 123, key3 ↦ {a:"b"}]` it produces exactly
`SET key1 = :key1,key2 = :key2,key3 = :key3` with the matching bindings. -/
theorem claim_C7 :
    parseDynamoUpdateArgs
        [("key1", AttrValue.str "v1"), ("key2", AttrValue.num 123),
         ("key3", AttrValue.obj [("a", AttrValue.str "b")])] =
      ("SET key1 = :key1,key2 = :key2,key3 = :key3",
       [(":key1", AttrValue.str "v1"), (":key2", AttrValue.num 123),
        (":key3", AttrValue.obj [("a", AttrValue.str "b")])]) ∧
    (∀ data : Record, (parseDynamoUpdateArgs data).2.length = data.length) ∧
    (∀ (data : Record) (k : String) (v : AttrValue), (k, v) ∈ data →
      (":" ++ k, v) ∈ (parseDynamoUpdateArgs data).2) := by
  refine ⟨rfl, ?_, ?_⟩
  · intro data
    simp [parseDynamoUpdateArgs]
  · intro data k v h
    simp only [parseDynamoUpdateArgs]
    exact List.mem_map_of_mem _ h

/-- Witness for C7 at a concrete input: the binding for the first entry is present. -/
theorem claim_C7_witness :
    (":key1", AttrValue.str "v1") ∈
      (parseDynamoUpdateArgs
        [("key1", AttrValue.str "v1"), ("key2", AttrValue.num 123),
         ("key3", AttrValue.obj [("a", AttrValue.str "b")])]).2 :=
  claim_C7.2.2
    [("key1", AttrValue.str "v1"), ("key2", AttrValue.num 123),
     ("key3", AttrValue.obj [("a", AttrValue.str "b")])]
    "key1" (AttrValue.str "v1") (List.Mem.head _)

/-- C3: a backend `ConditionalCheckFailedException` with client-range status is
recolored per verb — `post` surfaces an `Err` with `defaultStatusCode = Conflict
(409)`, while `put` and `patch` surface `NotFound (404)`. -/
theorem claim_C3 (ks : List String) (table : String) (id data : Record)
    (dResp : DbResponse (List String)) (e : AWSError)
    (hcode : e.code = "ConditionalCheckFailedException")
    (h503 : e.statusCode ≠ some 503) (h500 : e.statusCode ≠ some 500) :
    (∃ err, (runPost ⟨some ks⟩ table id data false dResp (DbResponse.err e)).promiseOutcome
        = some (Except.error err) ∧ err.defaultStatusCode = ErrorType.Conflict) ∧
    (∃ err, (runPut ⟨some ks⟩ table id data false dResp (DbResponse.err e)).promiseOutcome
        = some (Except.error err) ∧ err.defaultStatusCode = ErrorType.NotFound) ∧
    (∃ err, (runPatch ⟨some ks⟩ table id data false dResp (DbResponse.err e)).promiseOutcome
        = some (Except.error err) ∧ err.defaultStatusCode = ErrorType.NotFound) := by
  refine ⟨⟨buildAwsErr e [("ConditionalCheckFailedException", ErrorType.Conflict)], rfl, ?_⟩,
    ⟨buildAwsErr e [("ConditionalCheckFailedException", ErrorType.NotFound)], rfl, ?_⟩,
    ⟨buildAwsErr e [("ConditionalCheckFailedException", ErrorType.NotFound)], rfl, ?_⟩⟩ <;>
    simp [buildAwsErr, classifyAwsStatus, h503, h500, hcode, lookupRecord]

/-- Witness for C3 at a concrete input: a conditional-check failure on `post` is a 409. -/
theorem claim_C3_witness :
    ∃ err,
      (runPost ⟨some ["id"]⟩ "test" [("id", AttrValue.str "x")] [] false
          (DbResponse.ok ["id"])
          (DbResponse.err ⟨"ConditionalCheckFailedException", "cond failed", some 400⟩)).promiseOutcome
        = some (Except.error err) ∧ err.defaultStatusCode = ErrorType.Conflict :=
  (claim_C3 ["id"] "test" [("id", AttrValue.str "x")] [] (DbResponse.ok ["id"])
    ⟨"ConditionalCheckFailedException", "cond failed", some 400⟩ rfl
    (by simp) (by simp)).1

/-- C8: `delete` yields `Ok(204)` with absent data whenever the store delete succeeds —
and the modelled store delete succeeds for every table, in particular when the item was
already absent — while a backend failure is classified through the error classifier
with no override. -/
theorem claim_C8 (ks : List String) (table : String) (id : Record)
    (dResp : DbResponse (List String)) :
    ((runDelete ⟨some ks⟩ table id false dResp (DbResponse.ok ())).promiseOutcome
        = some (Except.ok { data := none, defaultStatusCode := SuccessType.NoContent }) ∧
     (runDelete ⟨some ks⟩ table id false dResp (DbResponse.ok ())).storeOps
        = [StoreOp.deleteItem table id]) ∧
    (∀ tbl : List Record, storeDeleteItemResp tbl id = DbResponse.ok () ∧
      (runDelete ⟨some ks⟩ table id false dResp (storeDeleteItemResp tbl id)).promiseOutcome
        = some (Except.ok { data := none, defaultStatusCode := SuccessType.NoContent })) ∧
    (∀ e : AWSError,
      (runDelete ⟨some ks⟩ table id false dResp (DbResponse.err e)).promiseOutcome
        = some (Except.error (buildAwsErr e []))) := by
  exact ⟨⟨rfl, rfl⟩, fun tbl => ⟨rfl, rfl⟩, fun e => rfl⟩

/-- C10: the item `post` and `put` write to the store and return in `Ok.data` is
`Object.assign({}, data, id)`; when `data` holds an attribute whose name is also a key
attribute of `id`, the value from `id` wins in the merged item. -/
theorem claim_C10 (ks : List String) (table : String) (id data : Record)
    (dResp : DbResponse (List String)) :
    ((runPost ⟨some ks⟩ table id data false dResp (DbResponse.ok ())).storeOps
        = [StoreOp.putItem table (mkItem data id) (keyNotExistConditionalExpression ks)] ∧
     (runPost ⟨some ks⟩ table id data false dResp (DbResponse.ok ())).promiseOutcome
        = some (Except.ok { data := some (mkItem data id),
                            defaultStatusCode := SuccessType.Created })) ∧
    ((runPut ⟨some ks⟩ table id data false dResp (DbResponse.ok ())).storeOps
        = [StoreOp.putItem table (mkItem data id) (keyExistConditionalExpression ks)] ∧
     (runPut ⟨some ks⟩ table id data false dResp (DbResponse.ok ())).promiseOutcome
        = some (Except.ok { data := some (mkItem data id),
                            defaultStatusCode := SuccessType.Ok })) ∧
    ((id.map Prod.fst).Nodup → ∀ (k : String) (v : AttrValue),
      lookupRecord k id = some v → lookupRecord k (mkItem data id) = some v) := by
  refine ⟨⟨rfl, rfl⟩, ⟨rfl, rfl⟩, ?_⟩
  intro hnd k v h
  unfold mkItem
  rw [lookupRecord_objectAssign k id hnd (objectAssign [] data), h]
  rfl

/-- Witness for C10 at concrete inputs: with `data` carrying a conflicting `id`
attribute, the value from the `id` map wins. -/
theorem claim_C10_witness :
    (runPost ⟨some ["id"]⟩ "test" [("id", AttrValue.str "x")]
        [("id", AttrValue.str "y"), ("attr1", AttrValue.num 1)] false
        (DbResponse.ok ["id"]) (DbResponse.ok ())).storeOps
      = [StoreOp.putItem "test"
          (mkItem [("id", AttrValue.str "y"), ("attr1", AttrValue.num 1)]
            [("id", AttrValue.str "x")])
          (keyNotExistConditionalExpression ["id"])] ∧
    lookupRecord "id"
        (mkItem [("id", AttrValue.str "y"), ("attr1", AttrValue.num 1)]
          [("id", AttrValue.str "x")])
      = some (AttrValue.str "x") :=
  ⟨(claim_C10 ["id"] "test" [("id", AttrValue.str "x")]
      [("id", AttrValue.str "y"), ("attr1", AttrValue.num 1)] (DbResponse.ok ["id"])).1.1,
   (claim_C10 ["id"] "test" [("id", AttrValue.str "x")]
      [("id", AttrValue.str "y"), ("attr1", AttrValue.num 1)] (DbResponse.ok ["id"])).2.2
     (by simp) "id" (AttrValue.str "x") rfl⟩

/-- C1 counterexample: at the concrete call `get({wrong-key: "value"})` on a client
whose resolved key schema is `["id"]`, a get operation IS issued against the underlying
store with the mismatched Id — refuting the claim that no operation is issued against
the store when the Id's attribute names do not match the key schema. -/
theorem claim_C1_counterexample :
    (runGet ⟨some ["id"]⟩ "test" [("wrong-key", AttrValue.str "value")] false
        (DbResponse.ok ["id"])
        (storeKeyValidated ["id"] [("wrong-key", AttrValue.str "value")]
          (DbResponse.ok none))).storeOps
      = [StoreOp.getItem "test" [("wrong-key", AttrValue.str "value")] none] ∧
    [StoreOp.getItem "test" [("wrong-key", AttrValue.str "value")] none] ≠ ([] : List StoreOp) :=
  ⟨rfl, by simp⟩

/-- C1 amended: the client performs no local key-schema validation — every verb issues
its store operation with the caller's Id (or the merged item) unchanged even when the
Id's attribute names do not match the resolved key schema; the 400 arises from the
store round-trip: the modelled collaborator rejects the mismatched key (get, head,
delete, patch), or a written item missing a declared key attribute (post, put), with a
client-range ValidationException, which the classifier — having no override for that
code — surfaces as an `Err` with `defaultStatusCode = BadRequest (400)`. -/
theorem claim_C1_amended (ks : List String) (table : String) (id data : Record)
    (dResp : DbResponse (List String))
    (onValidG onValidH onValidU : DbResponse (Option Record))
    (onValidP onValidPu onValidD : DbResponse Unit)
    (hmis : idMatchesSchema ks id = false)
    (hitem : (ks.all fun k => (mkItem data id).any fun p => p.1 = k) = false) :
    ((runGet ⟨some ks⟩ table id false dResp (storeKeyValidated ks id onValidG)).storeOps
        = [StoreOp.getItem table id none] ∧
     (∃ err, (runGet ⟨some ks⟩ table id false dResp
          (storeKeyValidated ks id onValidG)).promiseOutcome
        = some (Except.error err) ∧ err.defaultStatusCode = ErrorType.BadRequest ∧
        err.isAwsError = true)) ∧
    ((runHead ⟨some ks⟩ table id false dResp (storeKeyValidated ks id onValidH)).storeOps
        = [StoreOp.getItem table id (some (keyProjectionExpression ks))] ∧
     (∃ err, (runHead ⟨some ks⟩ table id false dResp
          (storeKeyValidated ks id onValidH)).promiseOutcome
        = some (Except.error err) ∧ err.defaultStatusCode = ErrorType.BadRequest)) ∧
    ((runDelete ⟨some ks⟩ table id false dResp (storeKeyValidated ks id onValidD)).storeOps
        = [StoreOp.deleteItem table id] ∧
     (∃ err, (runDelete ⟨some ks⟩ table id false dResp
          (storeKeyValidated ks id onValidD)).promiseOutcome
        = some (Except.error err) ∧ err.defaultStatusCode = ErrorType.BadRequest)) ∧
    ((runPatch ⟨some ks⟩ table id data false dResp (storeKeyValidated ks id onValidU)).storeOps
        = [StoreOp.updateItem table id (keyExistConditionalExpression ks)
            (parseDynamoUpdateArgs data).1 (parseDynamoUpdateArgs data).2] ∧
     (∃ err, (runPatch ⟨some ks⟩ table id data false dResp
          (storeKeyValidated ks id onValidU)).promiseOutcome
        = some (Except.error err) ∧ err.defaultStatusCode = ErrorType.BadRequest)) ∧
    ((runPost ⟨some ks⟩ table id data false dResp
          (storeItemValidated ks (mkItem data id) onValidP)).storeOps
        = [StoreOp.putItem table (mkItem data id) (keyNotExistConditionalExpression ks)] ∧
     (∃ err, (runPost ⟨some ks⟩ table id data false dResp
          (storeItemValidated ks (mkItem data id) onValidP)).promiseOutcome
        = some (Except.error err) ∧ err.defaultStatusCode = ErrorType.BadRequest)) ∧
    ((runPut ⟨some ks⟩ table id data false dResp
          (storeItemValidated ks (mkItem data id) onValidPu)).storeOps
        = [StoreOp.putItem table (mkItem data id) (keyExistConditionalExpression ks)] ∧
     (∃ err, (runPut ⟨some ks⟩ table id data false dResp
          (storeItemValidated ks (mkItem data id) onValidPu)).promiseOutcome
        = some (Except.error err) ∧ err.defaultStatusCode = ErrorType.BadRequest)) := by
  have hkv : ∀ {α : Type} (onValid : DbResponse α),
      storeKeyValidated ks id onValid = DbResponse.err validationException := by
    intro α onValid
    simp [storeKeyValidated, hmis]
  have hiv : ∀ {α : Type} (onValid : DbResponse α),
      storeItemValidated ks (mkItem data id) onValid = DbResponse.err validationException := by
    intro α onValid
    simp [storeItemValidated, hitem]
  rw [hkv onValidG, hkv onValidH, hkv onValidD, hkv onValidU, hiv onValidP, hiv onValidPu]
  exact ⟨⟨rfl, ⟨buildAwsErr validationException [], rfl, rfl, rfl⟩⟩,
    ⟨rfl, ⟨buildAwsErr validationException [], rfl, rfl⟩⟩,
    ⟨rfl, ⟨buildAwsErr validationException [], rfl, rfl⟩⟩,
    ⟨rfl, ⟨buildAwsErr validationException
      [("ConditionalCheckFailedException", ErrorType.NotFound)], rfl, rfl⟩⟩,
    ⟨rfl, ⟨buildAwsErr validationException
      [("ConditionalCheckFailedException", ErrorType.Conflict)], rfl, rfl⟩⟩,
    ⟨rfl, ⟨buildAwsErr validationException
      [("ConditionalCheckFailedException", ErrorType.NotFound)], rfl, rfl⟩⟩⟩

/-- Witness for the amended C1 at concrete inputs: `{wrong-key: "value"}` against key
schema `["id"]`. -/
theorem claim_C1_amended_witness :
    (runGet ⟨some ["id"]⟩ "test" [("wrong-key", AttrValue.str "value")] false
        (DbResponse.ok ["id"])
        (storeKeyValidated ["id"] [("wrong-key", AttrValue.str "value")]
          (DbResponse.ok none))).storeOps
      = [StoreOp.getItem "test" [("wrong-key", AttrValue.str "value")] none] ∧
    (∃ err, (runGet ⟨some ["id"]⟩ "test" [("wrong-key", AttrValue.str "value")] false
        (DbResponse.ok ["id"])
        (storeKeyValidated ["id"] [("wrong-key", AttrValue.str "value")]
          (DbResponse.ok none))).promiseOutcome
      = some (Except.error err) ∧ err.defaultStatusCode = ErrorType.BadRequest ∧
      err.isAwsError = true) :=
  (claim_C1_amended ["id"] "test" [("wrong-key", AttrValue.str "value")] []
    (DbResponse.ok ["id"]) (DbResponse.ok none) (DbResponse.ok none) (DbResponse.ok none)
    (DbResponse.ok ()) (DbResponse.ok ()) (DbResponse.ok ())
    (by decide) (by decide)).1

/-- C2 counterexample: at a concrete `get` call with a callback supplied and a found
item, the callback is invoked with the `Ok`, yet the returned Result's future never
settles (`promiseOutcome = none`) — refuting the claim that the future still resolves
to the same `Ok` delivered to the callback. -/
theorem claim_C2_counterexample :
    (runGet ⟨some ["id"]⟩ "test" [("id", AttrValue.str "x")] true (DbResponse.ok ["id"])
        (DbResponse.ok (some [("id", AttrValue.str "x")]))).callbackCalls
      = [(none, some { data := some [("id", AttrValue.str "x")],
                       defaultStatusCode := SuccessType.Ok })] ∧
    (runGet ⟨some ["id"]⟩ "test" [("id", AttrValue.str "x")] true (DbResponse.ok ["id"])
        (DbResponse.ok (some [("id", AttrValue.str "x")]))).promiseOutcome = none :=
  ⟨rfl, rfl⟩

/-- C2 amended: once the key schema is resolved, supplying a callback routes the
classification exclusively to the callback — exactly one invocation carrying the same
`Ok`/`Err` that the promise path (no callback) delivers — while the returned Result's
future never settles; without a callback the future alone resolves or rejects and the
callback list is empty. -/
theorem claim_C2_amended (ks : List String) (table : String) (id data : Record)
    (dResp : DbResponse (List String)) (gResp hResp uResp : DbResponse (Option Record))
    (pResp puResp delResp : DbResponse Unit) :
    callbackAgrees (runGet ⟨some ks⟩ table id true dResp gResp)
      (runGet ⟨some ks⟩ table id false dResp gResp) ∧
    callbackAgrees (runHead ⟨some ks⟩ table id true dResp hResp)
      (runHead ⟨some ks⟩ table id false dResp hResp) ∧
    callbackAgrees (runPost ⟨some ks⟩ table id data true dResp pResp)
      (runPost ⟨some ks⟩ table id data false dResp pResp) ∧
    callbackAgrees (runPut ⟨some ks⟩ table id data true dResp puResp)
      (runPut ⟨some ks⟩ table id data false dResp puResp) ∧
    callbackAgrees (runDelete ⟨some ks⟩ table id true dResp delResp)
      (runDelete ⟨some ks⟩ table id false dResp delResp) ∧
    callbackAgrees (runPatch ⟨some ks⟩ table id data true dResp uResp)
      (runPatch ⟨some ks⟩ table id data false dResp uResp) := by
  refine ⟨?_, ?_, ?_, ?_, ?_, ?_⟩
  · cases gResp with
    | err e => exact ⟨rfl, rfl, _, rfl, rfl⟩
    | ok o => cases o with
      | none => exact ⟨rfl, rfl, _, rfl, rfl⟩
      | some item => exact ⟨rfl, rfl, _, rfl, rfl⟩
  · cases hResp with
    | err e => exact ⟨rfl, rfl, _, rfl, rfl⟩
    | ok o => cases o with
      | none => exact ⟨rfl, rfl, _, rfl, rfl⟩
      | some item => exact ⟨rfl, rfl, _, rfl, rfl⟩
  · cases pResp with
    | err e => exact ⟨rfl, rfl, _, rfl, rfl⟩
    | ok u => exact ⟨rfl, rfl, _, rfl, rfl⟩
  · cases puResp with
    | err e => exact ⟨rfl, rfl, _, rfl, rfl⟩
    | ok u => exact ⟨rfl, rfl, _, rfl, rfl⟩
  · cases delResp with
    | err e => exact ⟨rfl, rfl, _, rfl, rfl⟩
    | ok u => exact ⟨rfl, rfl, _, rfl, rfl⟩
  · cases uResp with
    | err e => exact ⟨rfl, rfl, _, rfl, rfl⟩
    | ok attrs => exact ⟨rfl, rfl, _, rfl, rfl⟩

/-- Witness for the amended C2 at concrete inputs (no hypotheses to discharge beyond
concrete instantiation). -/
theorem claim_C2_amended_witness :
    callbackAgrees
      (runGet ⟨some ["id"]⟩ "test" [("id", AttrValue.str "x")] true (DbResponse.ok ["id"])
        (DbResponse.ok none))
      (runGet ⟨some ["id"]⟩ "test" [("id", AttrValue.str "x")] false (DbResponse.ok ["id"])
        (DbResponse.ok none)) :=
  (claim_C2_amended ["id"] "test" [("id", AttrValue.str "x")] [] (DbResponse.ok ["id"])
    (DbResponse.ok none) (DbResponse.ok none) (DbResponse.ok none)
    (DbResponse.ok ()) (DbResponse.ok ()) (DbResponse.ok ())).1

/-- C9: the table's key schema is resolved through the describe operation at most once
per client — from a cached state every verb sequence issues zero describe-table
requests and leaves the cache untouched, and a first invocation whose describe
succeeds caches the resolved names, after which any further sequence issues no lookup
and the cache holds those names forever. -/
theorem claim_C9 :
    (∀ (ks : List String) (calls : List VerbCall),
      runCalls ⟨some ks⟩ calls = (⟨some ks⟩, 0)) ∧
    (∀ (names : List String) (c : VerbCall) (calls : List VerbCall),
      c.describeResp = DbResponse.ok names →
      runCalls ⟨none⟩ (c :: calls) = (⟨some names⟩, 1)) ∧
    (∀ (ks : List String) (c : VerbCall),
      (runVerbCall ⟨some ks⟩ c).describeIssued = false ∧
      (runVerbCall ⟨some ks⟩ c).finalState = ⟨some ks⟩) := by
  refine ⟨?_, ?_, ?_⟩
  · intro ks calls
    unfold runCalls
    exact runCallsAux_cached ks calls 0
  · intro names c calls h
    unfold runCalls
    rw [List.foldl_cons]
    have h1 := runVerbCall_first names c h
    simp only [h1.1, h1.2, if_true, Nat.zero_add]
    exact runCallsAux_cached names calls 1
  · intro ks c
    exact ⟨(runVerbCall_cached ks c).2, (runVerbCall_cached ks c).1⟩

/-- Witness for C9 at concrete inputs: a first `get` resolving `["id"]` followed by a
`delete` issues exactly one describe-table request and ends with the schema cached. -/
theorem claim_C9_witness :
    runCalls ⟨none⟩
        [VerbCall.getC "test" [("id", AttrValue.str "x")] false
          (DbResponse.ok ["id"]) (DbResponse.ok none),
         VerbCall.deleteC "test" [("id", AttrValue.str "x")] false
          (DbResponse.ok ["other"]) (DbResponse.ok ())]
      = (⟨some ["id"]⟩, 1) :=
  claim_C9.2.1 ["id"]
    (VerbCall.getC "test" [("id", AttrValue.str "x")] false
      (DbResponse.ok ["id"]) (DbResponse.ok none))
    [VerbCall.deleteC "test" [("id", AttrValue.str "x")] false
      (DbResponse.ok ["other"]) (DbResponse.ok ())] rfl
